import Mathlib

/-!
Verification development for the thickness-file ingestion service
(`FastAPI_thickness.py`).

The service exposes six POST endpoints.  Each handler follows the same
shape: read the request body as raw bytes, stage them in a uniquely named
temporary file (`tempfile.NamedTemporaryFile(delete=False, suffix=...)`,
then `write`, then `close`, then record `temp_file.name` in `file_path`),
construct a `thickness_file` on the staged path, invoke one of its
methods (`table_of_df`, `thickness_ma_for_database`, `validity_check`),
delete the staged file with `os.unlink`, and return the method's result.
Any exception raised inside the `try` block is absorbed by
`except Exception as e`, which returns
`{"error": str(e), "problematic_file": "Temporary file not created"}`.

The embedding below models the byte payload as a list of naturals, the
temp directory as an association-list filesystem, and every fallible
external step (body read, temp-file creation, write, close,
`thickness_file` construction, the domain method, `os.unlink`) as an
`Except String` outcome supplied by an environment record, since the
domain library `thickness` is an external collaborator whose behaviour
the handler only observes through success or a raised exception.
-/

namespace ThicknessAPI

/-- Raw request bodies and staged file contents: sequences of bytes. -/
abbrev Bytes := List Nat

/-- Filesystem paths (strings, as in the Python source). -/
abbrev Path := String

/-- The staging (temp) directory, modelled as an association list from
paths to file contents.  The head entry for a path is its current
content. -/
abbrev FS := List (Path × Bytes)

/-- Look up the current content of a path. -/
def fsLookup : FS → Path → Option Bytes
  | [], _ => none
  | (q, b) :: rest, p => if q = p then some b else fsLookup rest p

/-- `os.unlink`: remove every entry for the path. -/
def fsRemove (fs : FS) (p : Path) : FS :=
  fs.filter (fun e => !(e.1 == p))

/-- A path is absent after `fsRemove`. -/
theorem fsLookup_fsRemove_self (fs : FS) (p : Path) :
    fsLookup (fsRemove fs p) p = none := by
  induction fs with
  | nil => rfl
  | cons e rest ih =>
    unfold fsRemove at ih ⊢
    rw [List.filter_cons]
    by_cases h : e.1 = p
    · simp [h, ih]
    · simp [h, fsLookup, ih]

/-- The operation's terminal call into the domain processor
(`thickness_file` method names, from the source). -/
inductive ProcMethod where
  | table_of_df
  | thickness_ma_for_database
  | validity_check
deriving DecidableEq, Repr

/-- Spreadsheet vs. delimited-text variant of an operation, as declared
by the `xlsx`/`txt` segment of its route. -/
inductive FormatVariant where
  | spreadsheet
  | text
deriving DecidableEq, Repr

/-- One endpoint of the service: its route, the suffix passed to
`tempfile.NamedTemporaryFile`, and the `thickness_file` method it calls.
All three fields are copied from the decorators and bodies in the
source. -/
structure Endpoint where
  route : String
  suffix : String
  method : ProcMethod
deriving DecidableEq, Repr

/-- `POST /thickness/xlsx/data/tablebody` (source lines 72-149):
suffix `.xlsx`, calls `table_of_df`. -/
def xlsx_data_tablebody : Endpoint :=
  ⟨"/thickness/xlsx/data/tablebody", ".xlsx", ProcMethod.table_of_df⟩

/-- `POST /thickness/txt/data/tablebody` (source lines 157-209):
suffix `.txt`, calls `table_of_df`. -/
def txt_data_tablebody : Endpoint :=
  ⟨"/thickness/txt/data/tablebody", ".txt", ProcMethod.table_of_df⟩

/-- `POST /thickness/xlsx/data/databasevaluesbody` (source lines
212-256): suffix `.txt` (as written at line 235), calls
`thickness_ma_for_database`. -/
def xlsx_data_databasevaluesbody : Endpoint :=
  ⟨"/thickness/xlsx/data/databasevaluesbody", ".txt",
    ProcMethod.thickness_ma_for_database⟩

/-- `POST /thickness/txt/data/databasevaluesbody` (source lines
259-301): suffix `.txt`, calls `thickness_ma_for_database`. -/
def txt_data_databasevaluesbody : Endpoint :=
  ⟨"/thickness/txt/data/databasevaluesbody", ".txt",
    ProcMethod.thickness_ma_for_database⟩

/-- `POST /thickness/xlsx/validation/body` (source lines 304-346):
suffix `.xlsx`, calls `validity_check`. -/
def xlsx_validation_body : Endpoint :=
  ⟨"/thickness/xlsx/validation/body", ".xlsx", ProcMethod.validity_check⟩

/-- `POST /thickness/txt/validation/body` (source lines 349-390):
suffix `.xlsx` (as written at line 373), calls `validity_check`. -/
def txt_validation_body : Endpoint :=
  ⟨"/thickness/txt/validation/body", ".xlsx", ProcMethod.validity_check⟩

/-- The six endpoints of the service. -/
def endpoints : List Endpoint :=
  [xlsx_data_tablebody, txt_data_tablebody,
   xlsx_data_databasevaluesbody, txt_data_databasevaluesbody,
   xlsx_validation_body, txt_validation_body]

/-- `leadsWith pat l` holds when `pat` is an initial segment of `l`. -/
def leadsWith : List Char → List Char → Bool
  | [], _ => true
  | _ :: _, [] => false
  | a :: as, b :: bs => (a = b) && leadsWith as bs

/-- Naive substring test on character lists. -/
def hasSub (pat : List Char) : List Char → Bool
  | [] => leadsWith pat []
  | c :: cs => leadsWith pat (c :: cs) || hasSub pat cs

/-- The format variant an endpoint declares through its route: routes
with an `xlsx` segment are the spreadsheet variant, the others the text
variant. -/
def formatVariant (e : Endpoint) : FormatVariant :=
  if hasSub "xlsx".data e.route.data then FormatVariant.spreadsheet
  else FormatVariant.text

/-- Whether an endpoint's staging suffix agrees with its declared format
variant: spreadsheet operations stage `.xlsx`, text operations stage
`.txt`. -/
def suffixMatchesB (e : Endpoint) : Bool :=
  match formatVariant e with
  | FormatVariant.spreadsheet => e.suffix == ".xlsx"
  | FormatVariant.text => e.suffix == ".txt"

/-- The fixed placeholder assigned to `error_file_path` in every
`except` block of the source (`"Temporary file not created"`). -/
def error_file_path : String := "Temporary file not created"

/-- The outcomes of the external, fallible steps of one request, in
source order.  `Except.error msg` stands for that step raising an
exception whose `str(e)` is `msg`.  `tempName` is the unique base name
chosen by `tempfile.NamedTemporaryFile` (the suffix is appended to it).
`methodOutcome` gives, per `thickness_file` method, the result or
exception of invoking it on the staged file. -/
structure Env (α : Type) where
  bodyOutcome : Except String Bytes
  tempName : Path
  createOutcome : Except String Unit
  writeOutcome : Except String Unit
  closeOutcome : Except String Unit
  ctorOutcome : Except String Unit
  methodOutcome : ProcMethod → Except String α
  unlinkOutcome : Except String Unit

/-- The two response shapes a handler can return: the domain processor's
result, or the error record `{"error": msg, "problematic_file": pf}`. -/
inductive Response (α : Type) where
  | result : α → Response α
  | errorRecord : (error : String) → (problematic : String) → Response α
deriving DecidableEq, Repr

/-- Everything observable about one handler run: the returned response,
the final staging filesystem, the value of the Python variable
`file_path` at return time (`none` iff line 121's assignment was never
reached, i.e. staging never completed), and the content the staging
filesystem associated to the staged path at the moment the
`thickness_file` instance was constructed (`none` when that point was
never reached). -/
structure RunResult (α : Type) where
  response : Response α
  fs : FS
  file_path : Option Path
  handedContent : Option Bytes
deriving Repr

/-- The handler body shared by all six endpoints (source lines 103-149
and their five near-identical copies), as a function of the endpoint,
the external outcomes, and the initial staging filesystem:

* `file_path = None`; then inside `try`:
* `byte_data = await request.body()`;
* `temp_file = tempfile.NamedTemporaryFile(delete=False, suffix=...)`
  creates an empty file at `tempName ++ suffix`;
* `temp_file.write(byte_data)` makes that file hold `byte_data`;
* `temp_file.close()`; `file_path = temp_file.name`;
* `new_file = thickness_file(file_path)`;
* the endpoint's method is invoked; `os.unlink(file_path)`;
* `return` the method's value.

Any step raising transfers to the `except` block, which returns
`{"error": str(e), "problematic_file": "Temporary file not created"}`
and deletes nothing. -/
def handle {α : Type} (ep : Endpoint) (env : Env α) (fs0 : FS) : RunResult α :=
  match env.bodyOutcome with
  | Except.error e => ⟨Response.errorRecord e error_file_path, fs0, none, none⟩
  | Except.ok byte_data =>
    match env.createOutcome with
    | Except.error e => ⟨Response.errorRecord e error_file_path, fs0, none, none⟩
    | Except.ok _ =>
      let path := env.tempName ++ ep.suffix
      let fs1 := (path, ([] : Bytes)) :: fs0
      match env.writeOutcome with
      | Except.error e => ⟨Response.errorRecord e error_file_path, fs1, none, none⟩
      | Except.ok _ =>
        let fs2 := (path, byte_data) :: fs1
        match env.closeOutcome with
        | Except.error e => ⟨Response.errorRecord e error_file_path, fs2, none, none⟩
        | Except.ok _ =>
          match env.ctorOutcome with
          | Except.error e =>
            ⟨Response.errorRecord e error_file_path, fs2, some path, none⟩
          | Except.ok _ =>
            let handed := fsLookup fs2 path
            match env.methodOutcome ep.method with
            | Except.error e =>
              ⟨Response.errorRecord e error_file_path, fs2, some path, handed⟩
            | Except.ok value =>
              match env.unlinkOutcome with
              | Except.error e =>
                ⟨Response.errorRecord e error_file_path, fs2, some path, handed⟩
              | Except.ok _ =>
                ⟨Response.result value, fsRemove fs2 path, some path, handed⟩

/-- The message of the first step that raises during a run, following
the source's sequential order; `none` when every step succeeds. -/
def firstError {α : Type} (ep : Endpoint) (env : Env α) : Option String :=
  match env.bodyOutcome with
  | Except.error e => some e
  | Except.ok _ =>
    match env.createOutcome with
    | Except.error e => some e
    | Except.ok _ =>
      match env.writeOutcome with
      | Except.error e => some e
      | Except.ok _ =>
        match env.closeOutcome with
        | Except.error e => some e
        | Except.ok _ =>
          match env.ctorOutcome with
          | Except.error e => some e
          | Except.ok _ =>
            match env.methodOutcome ep.method with
            | Except.error e => some e
            | Except.ok _ =>
              match env.unlinkOutcome with
              | Except.error e => some e
              | Except.ok _ => none

/-- A wall-clock instant at the resolution used by
`dt.datetime.now().strftime('%Y-%m-%d_%H-%M-%S')`: one second. -/
structure Timestamp where
  year : Nat
  month : Nat
  day : Nat
  hour : Nat
  minute : Nat
  second : Nat
deriving DecidableEq, Repr

/-- The two zero-padded decimal digits of a field rendered by a
two-character `strftime` directive (`%m`, `%d`, `%H`, `%M`, `%S`). -/
def pad2chars (n : Nat) : List Char :=
  [Nat.digitChar (n / 10), Nat.digitChar (n % 10)]

/-- The four zero-padded decimal digits of `%Y` (years below 10000). -/
def pad4chars (n : Nat) : List Char :=
  [Nat.digitChar (n / 1000), Nat.digitChar (n / 100 % 10),
   Nat.digitChar (n / 10 % 10), Nat.digitChar (n % 10)]

/-- The characters of `strftime('%Y-%m-%d_%H-%M-%S')`. -/
def strftimeChars (t : Timestamp) : List Char :=
  pad4chars t.year ++ [Char.ofNat 45] ++ pad2chars t.month ++ [Char.ofNat 45] ++
    pad2chars t.day ++ [Char.ofNat 95] ++ pad2chars t.hour ++ [Char.ofNat 45] ++
    pad2chars t.minute ++ [Char.ofNat 45] ++ pad2chars t.second

/-- The `timestamp` string computed at source line 35, used both as the
logger's registry name and in the log file's name. -/
def strftimeName (t : Timestamp) : String :=
  String.mk (strftimeChars t)

/-- The log directory of source line 18. -/
def log_directory : String := "./Logs"

/-- The log file path of source line 37. -/
def log_file_path (t : Timestamp) : String :=
  log_directory ++ "/" ++ strftimeName t ++ ".log"

/-- What `create_logger` (source lines 23-56) determines for a call made
at instant `t`: the channel is `logging.getLogger(timestamp)`, i.e. the
entry of the process-wide logger registry keyed by the timestamp string,
and the destination is the file handler's path. -/
structure LoggerModel where
  channelName : String
  logFilePath : String
deriving DecidableEq, Repr

/-- `create_logger`, as a function of the wall-clock instant of the
call. -/
def create_logger (t : Timestamp) : LoggerModel :=
  ⟨strftimeName t, log_file_path t⟩

/-- A call to `create_logger`, tagged with the identity of the inbound
request that makes it (two different requests are different calls even
when made at the same instant). -/
def channelOfCall (c : Nat × Timestamp) : String :=
  (create_logger c.2).channelName

/-- The field bounds under which the `strftime` rendering is faithful:
the year fits in `%Y`'s four digits and each other field in its two
digits.  Calendar-valid timestamps satisfy far tighter bounds. -/
def validTs (t : Timestamp) : Prop :=
  t.year < 10000 ∧ t.month < 100 ∧ t.day < 100 ∧ t.hour < 100 ∧
    t.minute < 100 ∧ t.second < 100

instance (t : Timestamp) : Decidable (validTs t) := by
  unfold validTs; infer_instance

/-- `Nat.digitChar` is injective on single digits. -/
theorem digitChar_inj (a b : Nat) (ha : a < 10) (hb : b < 10)
    (h : Nat.digitChar a = Nat.digitChar b) : a = b := by
  interval_cases a <;> interval_cases b <;> revert h <;> decide

/-- Two-digit zero-padded rendering is injective below 100. -/
theorem pad2chars_inj (n m : Nat) (hn : n < 100) (hm : m < 100)
    (h : pad2chars n = pad2chars m) : n = m := by
  simp only [pad2chars, List.cons.injEq, and_true] at h
  have e1 := digitChar_inj _ _ (by omega) (by omega) h.1
  have e2 := digitChar_inj _ _ (by omega) (by omega) h.2
  omega

/-- Four-digit zero-padded rendering is injective below 10000. -/
theorem pad4chars_inj (n m : Nat) (hn : n < 10000) (hm : m < 10000)
    (h : pad4chars n = pad4chars m) : n = m := by
  simp only [pad4chars, List.cons.injEq, and_true] at h
  obtain ⟨h1, h2, h3, h4⟩ := h
  have e1 := digitChar_inj _ _ (by omega) (by omega) h1
  have e2 := digitChar_inj _ _ (by omega) (by omega) h2
  have e3 := digitChar_inj _ _ (by omega) (by omega) h3
  have e4 := digitChar_inj _ _ (by omega) (by omega) h4
  omega

/-- Within the `validTs` bounds, the timestamp string determines the
timestamp: every directive renders at a fixed width, so the fields can
be read back off by position. -/
theorem strftimeChars_inj (t1 t2 : Timestamp) (h1 : validTs t1)
    (h2 : validTs t2) (h : strftimeChars t1 = strftimeChars t2) : t1 = t2 := by
  obtain ⟨y1, mo1, d1, hh1, mi1, s1⟩ := t1
  obtain ⟨y2, mo2, d2, hh2, mi2, s2⟩ := t2
  obtain ⟨hy1, hmo1, hd1, hhh1, hmi1, hs1⟩ := h1
  obtain ⟨hy2, hmo2, hd2, hhh2, hmi2, hs2⟩ := h2
  dsimp only at hy1 hmo1 hd1 hhh1 hmi1 hs1 hy2 hmo2 hd2 hhh2 hmi2 hs2
  simp only [strftimeChars, pad4chars, pad2chars, List.cons_append,
    List.nil_append, List.cons.injEq, and_true] at h
  obtain ⟨a1, a2, a3, a4, -, b1, b2, -, c1, c2, -, d1', d2', -, e1', e2', -,
    f1, f2⟩ := h
  simp only [Timestamp.mk.injEq]
  refine ⟨?_, ?_, ?_, ?_, ?_, ?_⟩
  · have g1 := digitChar_inj _ _ (by omega) (by omega) a1
    have g2 := digitChar_inj _ _ (by omega) (by omega) a2
    have g3 := digitChar_inj _ _ (by omega) (by omega) a3
    have g4 := digitChar_inj _ _ (by omega) (by omega) a4
    omega
  · have g1 := digitChar_inj _ _ (by omega) (by omega) b1
    have g2 := digitChar_inj _ _ (by omega) (by omega) b2
    omega
  · have g1 := digitChar_inj _ _ (by omega) (by omega) c1
    have g2 := digitChar_inj _ _ (by omega) (by omega) c2
    omega
  · have g1 := digitChar_inj _ _ (by omega) (by omega) d1'
    have g2 := digitChar_inj _ _ (by omega) (by omega) d2'
    omega
  · have g1 := digitChar_inj _ _ (by omega) (by omega) e1'
    have g2 := digitChar_inj _ _ (by omega) (by omega) e2'
    omega
  · have g1 := digitChar_inj _ _ (by omega) (by omega) f1
    have g2 := digitChar_inj _ _ (by omega) (by omega) f2
    omega

/-- An environment whose request body read fails. -/
def envC3 : Env Nat :=
  ⟨Except.error "connection reset while reading body", "/tmp/tmpa1b2c3",
   Except.ok (), Except.ok (), Except.ok (), Except.ok (),
   fun _ => Except.ok 0, Except.ok ()⟩

/-- An environment in which every step succeeds, staging an xlsx body. -/
def envC4 : Env Nat :=
  ⟨Except.ok [80, 75, 3, 4], "/tmp/tmpq1w2e3", Except.ok (), Except.ok (),
   Except.ok (), Except.ok (), fun _ => Except.ok 7, Except.ok ()⟩

/-- An environment in which staging succeeds and the domain method
raises. -/
def envC1 : Env Nat :=
  ⟨Except.ok [], "/tmp/tmp8f3k1s2d", Except.ok (), Except.ok (), Except.ok (),
   Except.ok (), fun _ => Except.error "File is not a zip file", Except.ok ()⟩

/-- An environment in which the `thickness_file` constructor raises. -/
def envC6 : Env Nat :=
  ⟨Except.ok [1, 2, 3], "/tmp/tmpz9y8x7", Except.ok (), Except.ok (),
   Except.ok (), Except.error "Unable to open file", fun _ => Except.ok 0,
   Except.ok ()⟩

/-- An environment in which every step succeeds, with a two-byte body. -/
def envC7 : Env Nat :=
  ⟨Except.ok [5, 6], "/tmp/tmpr4t5y6", Except.ok (), Except.ok (),
   Except.ok (), Except.ok (), fun _ => Except.ok 1, Except.ok ()⟩

/-- An environment in which every step succeeds and each domain method
returns a distinct value. -/
def envC9 : Env Nat :=
  ⟨Except.ok [9], "/tmp/tmpj7k8l9", Except.ok (), Except.ok (), Except.ok (),
   Except.ok (),
   fun m => match m with
     | ProcMethod.table_of_df => Except.ok 42
     | ProcMethod.thickness_ma_for_database => Except.ok 7
     | ProcMethod.validity_check => Except.ok 1,
   Except.ok ()⟩

/-- An environment in which processing succeeds but `os.unlink`
raises. -/
def envC10 : Env Nat :=
  ⟨Except.ok [4, 2], "/tmp/tmpn1m2b3", Except.ok (), Except.ok (),
   Except.ok (), Except.ok (), fun _ => Except.ok 13,
   Except.error "No such file or directory"⟩

/-- Claim C1 (code behaviour at the failing input): the claim says that
when staging completed and processing then fails, the Error Record's
`problematic_file` is the staged path.  In the code, every `except`
block sets `error_file_path = "Temporary file not created"`
unconditionally, so even on a run where staging completed (here: empty
body staged successfully, then `table_of_df` raises) the response
carries the placeholder and not the staged path. -/
theorem C1_code_behavior :
    (handle xlsx_data_tablebody envC1 []).file_path =
      some ("/tmp/tmp8f3k1s2d" ++ ".xlsx") ∧
    (handle xlsx_data_tablebody envC1 []).response =
      Response.errorRecord "File is not a zip file" error_file_path ∧
    error_file_path ≠ "/tmp/tmp8f3k1s2d" ++ ".xlsx" :=
  ⟨rfl, rfl, by decide⟩

/-- Claim C2 (code behaviour at the failing endpoints): the claim says
every spreadsheet-variant operation stages with suffix `.xlsx` and every
text-variant operation with suffix `.txt`.  In the code, the
spreadsheet-variant aggregate endpoint
`/thickness/xlsx/data/databasevaluesbody` stages with suffix `.txt` and
the text-variant validation endpoint `/thickness/txt/validation/body`
stages with suffix `.xlsx`; the remaining four endpoints match. -/
theorem C2_code_behavior :
    formatVariant xlsx_data_databasevaluesbody = FormatVariant.spreadsheet ∧
    xlsx_data_databasevaluesbody.suffix = ".txt" ∧
    formatVariant txt_validation_body = FormatVariant.text ∧
    txt_validation_body.suffix = ".xlsx" ∧
    ([xlsx_data_tablebody, txt_data_tablebody, txt_data_databasevaluesbody,
      xlsx_validation_body].all suffixMatchesB) = true := by
  decide

/-- Claim C3: whenever any step of the request (body read, temp-file
creation, write, close, `thickness_file` construction, the domain
method, or the unlink) raises, the handler returns the normal value
`{"error": <message of the first failing step>, "problematic_file":
<placeholder string>}` instead of propagating the exception. -/
theorem C3_errors_absorbed {α : Type} (ep : Endpoint) (env : Env α) (fs0 : FS)
    (e : String) (h : firstError ep env = some e) :
    (handle ep env fs0).response = Response.errorRecord e error_file_path := by
  obtain ⟨bo, tn, co, wo, clo, cto, mo, uo⟩ := env
  cases bo <;> cases co <;> cases wo <;> cases clo <;> cases cto <;>
    rcases hmo : mo ep.method with _ | _ <;> cases uo <;>
      simp_all [handle, firstError]

/-- Claim C3 witness: a request whose body read raises is answered with
the error record for that message. -/
theorem C3_witness :
    firstError xlsx_data_tablebody envC3 =
      some "connection reset while reading body" ∧
    (handle xlsx_data_tablebody envC3 []).response =
      Response.errorRecord "connection reset while reading body"
        error_file_path :=
  ⟨rfl, C3_errors_absorbed xlsx_data_tablebody envC3 [] _ rfl⟩

/-- Claim C4: on every successful run the staged artifact was created at
`tempName ++ suffix` and is absent from the filesystem returned with the
Processing Result, because `os.unlink(file_path)` runs before
`return`. -/
theorem C4_success_releases {α : Type} (ep : Endpoint) (env : Env α)
    (fs0 : FS) (v : α)
    (h : (handle ep env fs0).response = Response.result v) :
    (handle ep env fs0).file_path = some (env.tempName ++ ep.suffix) ∧
    fsLookup (handle ep env fs0).fs (env.tempName ++ ep.suffix) = none := by
  obtain ⟨bo, tn, co, wo, clo, cto, mo, uo⟩ := env
  cases bo <;> cases co <;> cases wo <;> cases clo <;> cases cto <;>
    rcases hmo : mo ep.method with _ | _ <;> cases uo <;>
      simp_all [handle, fsLookup_fsRemove_self]

/-- Claim C4 witness: a fully successful run returns the result and
leaves no staged file behind. -/
theorem C4_witness :
    (handle xlsx_data_tablebody envC4 []).response = Response.result 7 ∧
    ((handle xlsx_data_tablebody envC4 []).file_path =
        some (envC4.tempName ++ xlsx_data_tablebody.suffix) ∧
      fsLookup (handle xlsx_data_tablebody envC4 []).fs
        (envC4.tempName ++ xlsx_data_tablebody.suffix) = none) :=
  ⟨rfl, C4_success_releases xlsx_data_tablebody envC4 [] 7 rfl⟩

/-- Claim C6: on a failure path on which staging completed (the Python
`file_path` holds the staged path), the staged file still holds the
uploaded bytes in the filesystem returned with the Error Record: no
deletion happens in the `except` block. -/
theorem C6_failure_retains {α : Type} (ep : Endpoint) (env : Env α)
    (fs0 : FS) (msg pf : String) (p : Path) (b : Bytes)
    (hb : env.bodyOutcome = Except.ok b)
    (h1 : (handle ep env fs0).response = Response.errorRecord msg pf)
    (h2 : (handle ep env fs0).file_path = some p) :
    fsLookup (handle ep env fs0).fs p = some b := by
  obtain ⟨bo, tn, co, wo, clo, cto, mo, uo⟩ := env
  cases bo <;> cases co <;> cases wo <;> cases clo <;> cases cto <;>
    rcases hmo : mo ep.method with _ | _ <;> cases uo <;>
      simp_all [handle, fsLookup]

/-- Claim C6 witness: when the `thickness_file` constructor raises, the
error record is returned and the staged file still holds the body. -/
theorem C6_witness :
    envC6.bodyOutcome = Except.ok [1, 2, 3] ∧
    (handle txt_data_tablebody envC6 []).response =
      Response.errorRecord "Unable to open file" error_file_path ∧
    (handle txt_data_tablebody envC6 []).file_path =
      some (envC6.tempName ++ txt_data_tablebody.suffix) ∧
    fsLookup (handle txt_data_tablebody envC6 []).fs
      (envC6.tempName ++ txt_data_tablebody.suffix) = some [1, 2, 3] :=
  ⟨rfl, rfl, rfl,
    C6_failure_retains txt_data_tablebody envC6 [] _ _ _ _ rfl rfl rfl⟩

/-- Claim C7: whenever the run reaches the point where the staged path
is handed to `thickness_file`, the content the filesystem associates to
that path is exactly the uploaded byte sequence, and the close step
cannot have raised (the handle was closed before the hand-over). -/
theorem C7_staged_copy {α : Type} (ep : Endpoint) (env : Env α) (fs0 : FS)
    (b c : Bytes) (hb : env.bodyOutcome = Except.ok b)
    (hc : (handle ep env fs0).handedContent = some c) :
    c = b ∧ ∀ e, env.closeOutcome ≠ Except.error e := by
  obtain ⟨bo, tn, co, wo, clo, cto, mo, uo⟩ := env
  cases bo <;> cases co <;> cases wo <;> cases clo <;> cases cto <;>
    rcases hmo : mo ep.method with _ | _ <;> cases uo <;>
      simp_all [handle, fsLookup]

/-- Claim C7 witness: on a successful run with body `[5, 6]`, the
processor is handed a file holding `[5, 6]`. -/
theorem C7_witness :
    envC7.bodyOutcome = Except.ok [5, 6] ∧
    (handle txt_data_tablebody envC7 []).handedContent = some [5, 6] ∧
    ([5, 6] = ([5, 6] : Bytes) ∧
      ∀ e, envC7.closeOutcome ≠ Except.error e) :=
  ⟨rfl, rfl, C7_staged_copy txt_data_tablebody envC7 [] [5, 6] [5, 6] rfl rfl⟩

/-- Claim C8: every run returns either a Processing Result or an Error
Record (never neither), never both; and the Processing Result shape
occurs exactly when no step raised. -/
theorem C8_exactly_one_outcome {α : Type} (ep : Endpoint) (env : Env α)
    (fs0 : FS) :
    ((∃ v, (handle ep env fs0).response = Response.result v) ∨
      (∃ m p, (handle ep env fs0).response = Response.errorRecord m p)) ∧
    ((∃ v, (handle ep env fs0).response = Response.result v) ↔
      firstError ep env = none) ∧
    ¬((∃ v, (handle ep env fs0).response = Response.result v) ∧
      ∃ m p, (handle ep env fs0).response = Response.errorRecord m p) := by
  obtain ⟨bo, tn, co, wo, clo, cto, mo, uo⟩ := env
  cases bo <;> cases co <;> cases wo <;> cases clo <;> cases cto <;>
    rcases hmo : mo ep.method with _ | _ <;> cases uo <;>
      simp_all [handle, firstError]

/-- Claim C9: if a run returns `Response.result v` then `v` is exactly
the value produced by the endpoint's designated domain method
(`table_of_df`, `thickness_ma_for_database`, or `validity_check`),
unchanged and unwrapped. -/
theorem C9_result_as_is {α : Type} (ep : Endpoint) (env : Env α) (fs0 : FS)
    (v : α) (h : (handle ep env fs0).response = Response.result v) :
    env.methodOutcome ep.method = Except.ok v := by
  obtain ⟨bo, tn, co, wo, clo, cto, mo, uo⟩ := env
  cases bo <;> cases co <;> cases wo <;> cases clo <;> cases cto <;>
    rcases hmo : mo ep.method with _ | _ <;> cases uo <;>
      simp_all [handle]

/-- Claim C9 witness: the table endpoint returns exactly the value
`table_of_df` produced. -/
theorem C9_witness :
    (handle xlsx_data_tablebody envC9 []).response = Response.result 42 ∧
    envC9.methodOutcome xlsx_data_tablebody.method = Except.ok 42 :=
  ⟨rfl, C9_result_as_is xlsx_data_tablebody envC9 [] 42 rfl⟩

/-- Claim C10: when every step up to and including the domain method
succeeds but `os.unlink` raises, the already-computed result is
discarded and the handler returns the Error Record with the placeholder
`problematic_file`. -/
theorem C10_unlink_discards {α : Type} (ep : Endpoint) (env : Env α)
    (fs0 : FS) (b : Bytes) (v : α) (e : String)
    (hb : env.bodyOutcome = Except.ok b)
    (hcr : env.createOutcome = Except.ok ())
    (hw : env.writeOutcome = Except.ok ())
    (hcl : env.closeOutcome = Except.ok ())
    (hct : env.ctorOutcome = Except.ok ())
    (hm : env.methodOutcome ep.method = Except.ok v)
    (hu : env.unlinkOutcome = Except.error e) :
    (handle ep env fs0).response = Response.errorRecord e error_file_path := by
  simp [handle, hb, hcr, hw, hcl, hct, hm, hu]

/-- Claim C10 witness: processing succeeds with value 13, unlink raises,
and the response is the error record for the unlink message. -/
theorem C10_witness :
    (envC10.bodyOutcome = Except.ok [4, 2] ∧
      envC10.createOutcome = Except.ok () ∧
      envC10.writeOutcome = Except.ok () ∧
      envC10.closeOutcome = Except.ok () ∧
      envC10.ctorOutcome = Except.ok () ∧
      envC10.methodOutcome xlsx_data_tablebody.method = Except.ok 13 ∧
      envC10.unlinkOutcome = Except.error "No such file or directory") ∧
    (handle xlsx_data_tablebody envC10 []).response =
      Response.errorRecord "No such file or directory" error_file_path :=
  ⟨⟨rfl, rfl, rfl, rfl, rfl, rfl, rfl⟩,
    C10_unlink_discards xlsx_data_tablebody envC10 [] [4, 2] 13 _
      rfl rfl rfl rfl rfl rfl rfl⟩

/-- The instant shared by two same-second calls. -/
def tsSame : Timestamp := ⟨2024, 5, 17, 10, 30, 0⟩

/-- Claim C5 counterexample: two different calls to `create_logger`
(made by two different requests) within the same second obtain the same
channel — the logger-registry name depends only on the second-resolution
timestamp, so the channels are not distinct. -/
theorem C5_counterexample :
    ((0, tsSame) : Nat × Timestamp) ≠ (1, tsSame) ∧
    channelOfCall (0, tsSame) = channelOfCall (1, tsSame) :=
  ⟨by decide, rfl⟩

/-- Claim C5 (amended): calls whose wall-clock instants differ at the
one-second resolution of the naming scheme obtain distinct channels,
because the `strftime` rendering is injective on in-range timestamps;
two calls within the same second share a channel. -/
theorem C5_distinct_seconds_distinct_channels (t1 t2 : Timestamp)
    (h1 : validTs t1) (h2 : validTs t2) (hne : t1 ≠ t2) :
    (create_logger t1).channelName ≠ (create_logger t2).channelName := by
  intro h
  exact hne (strftimeChars_inj t1 t2 h1 h2 (congrArg String.data h))

/-- The instants of two calls one second apart. -/
def tsA : Timestamp := ⟨2024, 5, 17, 10, 30, 0⟩

/-- See `tsA`. -/
def tsB : Timestamp := ⟨2024, 5, 17, 10, 30, 1⟩

/-- Claim C5 witness: two calls one second apart obtain distinct
channels. -/
theorem C5_witness :
    validTs tsA ∧ validTs tsB ∧ tsA ≠ tsB ∧
    (create_logger tsA).channelName ≠ (create_logger tsB).channelName :=
  ⟨by decide, by decide, by decide,
    C5_distinct_seconds_distinct_channels tsA tsB (by decide) (by decide)
      (by decide)⟩

end ThicknessAPI
